import Mathlib

/-!
Shallow embedding of the ztrack event-recording core
(src/ztrack/tracker.py, src/ztrack/datatype.py, src/ztrack/__init__.py).

Modelling conventions:
* Python dicts are association lists `List (String × Val)` with insertion
  order preserved; `d[k] = v` replaces the value in place when the key is
  present and appends otherwise, exactly like CPython dicts.
* Values appearing in `meta` / `fields` / `data` are modelled by `Val`
  (strings and integers suffice for every operation the development uses).
* File handles are modelled by a file map from path to written content;
  opening with mode `a+` creates the file when missing and preserves the
  existing content.  Calling `flush` (or writing) on a closed handle raises
  `ValueError` in Python; this is modelled with `Except String`.
* Wall-clock and performance timestamps are nondeterministic inputs; the
  tracker operations take them as explicit arguments (`ts`, `perf`).  The
  floating-point millisecond computation in `span` is likewise taken as an
  opaque integer argument `elapsedMs`.
* `EventRecorderState.eventLog` and `EventRecorderState.finalizeLog` are
  observation-only ghost fields: the former records every event handed to
  `EventRecorder.record_event` (in source order), the latter the name of
  every reporter whose `finalize` ran.  No operation reads them.
* Event-record callbacks are external observers whose exceptions are caught
  by the recorder and which do not touch recorder state; they are not part
  of the state.  Directory creation (`mkdir`) is likewise not modelled.
-/

inductive Val where
  | str (s : String)
  | int (n : Int)
deriving DecidableEq, Repr

/-- Python dict: insertion-ordered association list. -/
abbrev Dict := List (String × Val)

/-- Python `d[k] = v` / one step of `d.update`: replace in place when the key
is present, append otherwise. -/
def dset (d : Dict) (k : String) (v : Val) : Dict :=
  if d.any (fun p => p.1 = k) then
    d.map (fun p => if p.1 = k then (k, v) else p)
  else
    d ++ [(k, v)]

/-- Python `{**a, **b}` and `a.update(b)`: fold every binding of `b` into `a`,
later bindings overriding earlier ones. -/
def dunion (a b : Dict) : Dict :=
  b.foldl (fun acc p => dset acc p.1 p.2) a

/-- Python `d.get(k)` (first binding wins, as keys are unique in real dicts). -/
def dget (d : Dict) (k : String) : Option Val :=
  (d.find? (fun p => p.1 = k)).map (fun p => p.2)

/-- Python `k in d`. -/
def dhasKey (d : Dict) (k : String) : Bool :=
  d.any (fun p => p.1 = k)

/-- Well-formedness of a dict representation: keys are pairwise distinct
(true of every real Python dict). -/
def NodupKeys (d : Dict) : Prop :=
  (d.map Prod.fst).Nodup

instance (d : Dict) : Decidable (NodupKeys d) := by
  unfold NodupKeys; infer_instance

/-- Event record, from `ztrack/datatype.py` (class `Event`).  The `write_json`
serialization helper is not modelled; events written to a file are kept as
structured values. -/
structure Event where
  id : String
  type : String
  ts : String
  perf_ts : Int
  meta : Dict
  data : Dict
deriving DecidableEq, Repr

/-- Artifact reference, from `ztrack/datatype.py` (class `ArtifactDataType`).
The Python field `_type_` is spelled `type_` here. -/
structure ArtifactDataType where
  type_ : String
  url : String
  format : String
  meta : Dict
deriving DecidableEq, Repr

/-- File system fragment for event files: path to list of written events
(one JSON line each). -/
abbrev FileMap := List (String × List Event)

def fget (fs : FileMap) (p : String) : List Event :=
  ((fs.find? (fun q => q.1 = p)).map (fun q => q.2)).getD []

def fhas (fs : FileMap) (p : String) : Bool :=
  fs.any (fun q => q.1 = p)

def fset (fs : FileMap) (p : String) (c : List Event) : FileMap :=
  if fs.any (fun q => q.1 = p) then
    fs.map (fun q => if q.1 = p then (p, c) else q)
  else
    fs ++ [(p, c)]

/-- Opening a path with mode `a+`: create the (empty) file when missing,
keep the existing content otherwise. -/
def ftouch (fs : FileMap) (p : String) : FileMap :=
  if fs.any (fun q => q.1 = p) then fs else fs ++ [(p, [])]

/-- State of `EventReporter` (tracker.py lines 13 to 46): one named channel
with an open output stream, a bounded buffer, and an event-id counter.
`closed` models whether `self._out_file` has been closed. -/
structure EventReporter where
  name : String
  outPath : String
  num_buffers : Nat
  buffers : List Event
  evt_id : Nat
  closed : Bool
deriving DecidableEq, Repr

/-- Constructor `EventReporter.__init__`: opens the file with mode `a+`
(creating it when missing), default buffer threshold 10, id counter 0. -/
def EventReporter.mkNew (name outPath : String) (fs : FileMap) :
    EventReporter × FileMap :=
  ({ name := name, outPath := outPath, num_buffers := 10,
     buffers := [], evt_id := 0, closed := false }, ftouch fs outPath)

/-- Method `EventReporter._flush`: write every buffered event as one line to
the file, clear the buffer, flush the stream.  On a closed stream Python
raises `ValueError` (both for `write` and for the unconditional trailing
`flush`), modelled as an error. -/
def EventReporter.flush (r : EventReporter) (fs : FileMap) :
    Except String (EventReporter × FileMap) :=
  if r.closed then
    Except.error "ValueError: I-O operation on closed file"
  else
    Except.ok ({ r with buffers := [] },
      fset fs r.outPath (fget fs r.outPath ++ r.buffers))

/-- Method `EventReporter._get_evt_id`: pre-increment the counter and return
its decimal rendering. -/
def EventReporter.get_evt_id (r : EventReporter) : String × EventReporter :=
  (toString (r.evt_id + 1), { r with evt_id := r.evt_id + 1 })

/-- Method `EventReporter.record_event`: assign the next id to the event,
append it to the buffer, and flush when the buffer size exceeds the
threshold.  Returns the id-assigned event as well. -/
def EventReporter.record_event (r : EventReporter) (fs : FileMap) (evt : Event) :
    Except String (Event × EventReporter × FileMap) := do
  let (eid, r1) := r.get_evt_id
  let evt1 := { evt with id := eid }
  let r2 := { r1 with buffers := r1.buffers ++ [evt1] }
  if r2.buffers.length > r2.num_buffers then
    let (r3, fs3) ← r2.flush fs
    Except.ok (evt1, r3, fs3)
  else
    Except.ok (evt1, r2, fs)

/-- Method `EventReporter.finalize`: a final flush, then close the stream. -/
def EventReporter.finalize (r : EventReporter) (fs : FileMap) :
    Except String (EventReporter × FileMap) := do
  let (r1, fs1) ← r.flush fs
  Except.ok ({ r1 with closed := true }, fs1)

/-- Reporter map: name to `EventReporter`, insertion ordered
(`self._reporters` in `EventRecorder`). -/
abbrev ReporterMap := List (String × EventReporter)

def rget (m : ReporterMap) (k : String) : Option EventReporter :=
  (m.find? (fun q => q.1 = k)).map (fun q => q.2)

def rset (m : ReporterMap) (k : String) (r : EventReporter) : ReporterMap :=
  if m.any (fun q => q.1 = k) then
    m.map (fun q => if q.1 = k then (k, r) else q)
  else
    m ++ [(k, r)]

/-- Every reporter held by the map has an open stream. -/
def allOpen (m : ReporterMap) : Bool :=
  m.all (fun q => !q.2.closed)

/-- State of `EventRecorder` (tracker.py lines 53 to 140): reporter map,
artifact directory, share count, id counters.  `files` is the event-file
fragment of the file system, `artifactFiles` the artifact-directory fragment
(path to saved content).  `eventLog` and `finalizeLog` are the ghost
observation fields described at the top of the file. -/
structure EventRecorderState where
  result_dir : String
  dry_run : Bool
  reporters : ReporterMap
  share_cnt : Int
  artifact_id : Nat
  span_id : Nat
  files : FileMap
  artifactFiles : List (String × String)
  eventLog : List (Event × String)
  finalizeLog : List String
deriving DecidableEq, Repr

/-- Constructor `EventRecorder.__init__`: empty reporter map, share count 0,
artifact counter 1000, span counter 2000.  `fs` is the pre-existing file
system (directory creation is not modelled). -/
def EventRecorderState.init (result_dir : String) (dry_run : Bool)
    (fs : FileMap) : EventRecorderState :=
  { result_dir := result_dir, dry_run := dry_run, reporters := [],
    share_cnt := 0, artifact_id := 1000, span_id := 2000,
    files := fs, artifactFiles := [], eventLog := [], finalizeLog := [] }

/-- Method `EventRecorder._get_artifact_id`: pre-increment, render decimal. -/
def EventRecorderState.get_artifact_id (s : EventRecorderState) :
    String × EventRecorderState :=
  (toString (s.artifact_id + 1), { s with artifact_id := s.artifact_id + 1 })

/-- Method `EventRecorder.next_span_id`: pre-increment, render decimal. -/
def EventRecorderState.next_span_id (s : EventRecorderState) :
    String × EventRecorderState :=
  (toString (s.span_id + 1), { s with span_id := s.span_id + 1 })

/-- Method `EventRecorder.save_artifact`: default empty format to `bin` and
empty prefix to `data`, always consume one artifact id, prefer
`persist_name` for the file name, and invoke the save callback (modelled by
`saveBytes`, the content the callback writes for the payload) unless in dry
run.  Returns the artifact reference. -/
def EventRecorderState.save_artifact {A : Type} (s : EventRecorderState)
    (data : A) (saveBytes : A → String) (pfx persist_name fmt : String)
    (meta : Dict) : ArtifactDataType × EventRecorderState :=
  let fmt1 := if fmt.length = 0 then "bin" else fmt
  let pfx1 := if pfx.length = 0 then "data" else pfx
  let aid := (s.get_artifact_id).1
  let s1 := (s.get_artifact_id).2
  let name := if persist_name ≠ "" then persist_name else pfx1 ++ "_" ++ aid
  let artifact_name := name ++ "." ++ fmt1
  let artifact_path := s1.result_dir ++ "/artifacts/" ++ artifact_name
  let s2 :=
    if s1.dry_run then s1
    else { s1 with artifactFiles :=
            s1.artifactFiles ++ [(artifact_path, saveBytes data)] }
  ({ type_ := "artifact", url := artifact_name, format := fmt1, meta := meta },
   s2)

/-- Method `EventRecorder._get_reporter`: look the name up, lazily creating
a fresh reporter writing to `{result_dir}/{name}.event.json` on first use. -/
def EventRecorderState.get_reporter (s : EventRecorderState) (name : String) :
    EventReporter × EventRecorderState :=
  match rget s.reporters name with
  | some r => (r, s)
  | none =>
      let (r, fs1) :=
        EventReporter.mkNew name (s.result_dir ++ "/" ++ name ++ ".event.json")
          s.files
      (r, { s with reporters := rset s.reporters name r, files := fs1 })

/-- Method `EventRecorder.record_event`: outside dry run, delegate to the
(lazily created) named reporter; callbacks are external observers and are
not part of the state.  The ghost `eventLog` records the event exactly as
the callbacks observe it (id already assigned outside dry run). -/
def EventRecorderState.record_event (s : EventRecorderState) (evt : Event)
    (reporter : String) : Except String EventRecorderState :=
  if s.dry_run then
    Except.ok { s with eventLog := s.eventLog ++ [(evt, reporter)] }
  else do
    let (r, s1) := s.get_reporter reporter
    let (evt1, r1, fs1) ← r.record_event s1.files evt
    Except.ok { s1 with reporters := rset s1.reporters reporter r1,
                        files := fs1,
                        eventLog := s1.eventLog ++ [(evt1, reporter)] }

/-- Method `EventRecorder.share`: bump the share count (the Python method
returns `self`; here the updated state is the result). -/
def EventRecorderState.share (s : EventRecorderState) : EventRecorderState :=
  { s with share_cnt := s.share_cnt + 1 }

/-- Loop body of `EventRecorder._finalize`: finalize each reporter in map
order, threading the file system and the ghost finalize log. -/
def finalizeReporters (rs : ReporterMap) (fs : FileMap) (log : List String) :
    Except String (FileMap × List String) :=
  match rs with
  | [] => Except.ok (fs, log)
  | q :: rest => do
      let (_, fs1) ← q.2.finalize fs
      finalizeReporters rest fs1 (log ++ [q.1])

/-- Method `EventRecorder._finalize`: finalize every reporter in map order,
then clear the map.  An exception from a reporter propagates before the map
is cleared, as in the Python loop.  The ghost `finalizeLog` records each
completed reporter finalize. -/
def EventRecorderState.finalizeAll (s : EventRecorderState) :
    Except String EventRecorderState := do
  let (fs, log) ← finalizeReporters s.reporters s.files s.finalizeLog
  Except.ok { s with reporters := [], files := fs, finalizeLog := log }

/-- Method `EventRecorder.unshare`: decrement the share count and finalize
everything when it reaches exactly zero. -/
def EventRecorderState.unshare (s : EventRecorderState) :
    Except String EventRecorderState :=
  let s1 := { s with share_cnt := s.share_cnt - 1 }
  if s1.share_cnt = 0 then s1.finalizeAll else Except.ok s1

/-- Configuration value `TrackerSetting` (tracker.py lines 143 to 157). -/
structure TrackerSetting where
  reporter : String
  meta : Dict
  record_log_event : Option Bool := none
deriving DecidableEq, Repr

/-- Method `TrackerSetting.merge`: the new reporter wins only when non-empty,
metadata is a shallow union with new keys winning, and an unset
`record_log_event` in the new configuration keeps the old value. -/
def TrackerSetting.merge (self new_cfg : TrackerSetting) : TrackerSetting :=
  let reporter :=
    if new_cfg.reporter.length ≠ 0 then new_cfg.reporter else self.reporter
  let record_log_event :=
    match new_cfg.record_log_event with
    | some b => some b
    | none => self.record_log_event
  { reporter := reporter, meta := dunion self.meta new_cfg.meta,
    record_log_event := record_log_event }

/-- Buffered track call `TrackItem` (tracker.py lines 160 to 163). -/
structure TrackItem where
  fields : Option Dict
  meta : Option Dict
deriving DecidableEq, Repr

/-- State of a `Tracker` handle (tracker.py lines 166 to 175).  The shared
recorder is threaded separately as an `EventRecorderState`; `logger` is an
external collaborator and not modelled. -/
structure Tracker where
  settings : TrackerSetting
  fields : Dict
  perf_timer_ns : Int
  tracks_buf : List TrackItem
deriving DecidableEq, Repr

/-- Method `Tracker.clone`: a fresh handle with the same settings, fields and
performance origin, sharing the recorder (bumping its share count); the
constructor starts the new handle with an empty track buffer. -/
def Tracker.clone (t : Tracker) (s : EventRecorderState) :
    Tracker × EventRecorderState :=
  ({ settings := t.settings, fields := t.fields,
     perf_timer_ns := t.perf_timer_ns, tracks_buf := [] }, s.share)

/-- Method `Tracker.with_settings`: merge the supplied settings into the
current ones on a clone (a `None` meta defaults to the empty dict). -/
def Tracker.with_settings (t : Tracker) (reporter : String)
    (meta : Option Dict) (record_log_event : Option Bool)
    (s : EventRecorderState) : Tracker × EventRecorderState :=
  let m := meta.getD []
  let new_settings :=
    t.settings.merge
      { reporter := reporter, meta := m, record_log_event := record_log_event }
  let (tr, s1) := t.clone s
  ({ tr with settings := new_settings }, s1)

/-- Method `Tracker.with_fields`: shallow-union the supplied fields into the
overlay on a clone. -/
def Tracker.with_fields (t : Tracker) (fields : Dict)
    (s : EventRecorderState) : Tracker × EventRecorderState :=
  let new_fields := dunion t.fields fields
  let (tr, s1) := t.clone s
  ({ tr with fields := new_fields }, s1)

/-- Method `Tracker._create_event`: when a (truthy, that is non-empty) meta
dict is supplied, the settings metadata is folded into it, overriding its
keys; otherwise the settings metadata is used directly.  `data` starts as a
copy of the field overlay.  `ts` and `perf` stand for `datetime.now()` and
`time.perf_counter_ns()`. -/
def Tracker.create_event (t : Tracker) (meta : Option Dict) (type : String)
    (ts : String) (perf : Int) : Event :=
  let m :=
    match meta with
    | some m0 => if m0.isEmpty then t.settings.meta else dunion m0 t.settings.meta
    | none => t.settings.meta
  { id := "", type := type, ts := ts, perf_ts := perf - t.perf_timer_ns,
    meta := m, data := t.fields }

/-- Method `Tracker._record_event`: record through the recorder under the
settings reporter name, defaulting to `default` when it is empty. -/
def Tracker.record_event (t : Tracker) (evt : Event)
    (s : EventRecorderState) : Except String EventRecorderState :=
  let reporter :=
    if t.settings.reporter.length = 0 then "default" else t.settings.reporter
  s.record_event evt reporter

/-- One step of the merge loop in `Tracker.track`: `fields.update(x)` runs
only when the buffered value is truthy (neither `None` nor empty). -/
def applyItemDict (acc : Dict) (x : Option Dict) : Dict :=
  match x with
  | none => acc
  | some f => if f.isEmpty then acc else dunion acc f

/-- Method `Tracker.track`: append the call to the buffer; on commit, merge
the field overlay with every buffered item in order (later wins), likewise
the settings metadata with every buffered meta, clear the buffer, build a
`z.tk` event whose data is the merged fields, and record it. -/
def Tracker.track (t : Tracker) (fields meta : Option Dict) (commit : Bool)
    (ts : String) (perf : Int) (s : EventRecorderState) :
    Except String (Tracker × EventRecorderState) :=
  let buf := t.tracks_buf ++ [{ fields := fields, meta := meta }]
  if commit then
    let fs := buf.foldl (fun acc it => applyItemDict acc it.fields) t.fields
    let ms := buf.foldl (fun acc it => applyItemDict acc it.meta)
      t.settings.meta
    let t1 := { t with tracks_buf := [] }
    let evt0 := t1.create_event (some ms) "" ts perf
    let evt := { evt0 with type := "z.tk", data := fs }
    do
      let s1 ← t1.record_event evt s
      Except.ok (t1, s1)
  else
    Except.ok ({ t with tracks_buf := buf }, s)

/-- Method `Tracker.log` (backing `info`, `warn` and the rest): when
`record_log_event` is truthy, emit a `z.log` event carrying the level name
and message in its data; the human-readable line written to the process
logger is external output and not modelled. -/
def Tracker.log (t : Tracker) (level msg : String) (ts : String) (perf : Int)
    (s : EventRecorderState) : Except String (Tracker × EventRecorderState) :=
  if t.settings.record_log_event = some true then
    let evt0 := t.create_event none "" ts perf
    let d1 := dset (dset evt0.data "log.level" (Val.str level))
      "log.msg" (Val.str msg)
    let evt := { evt0 with type := "z.log", data := d1 }
    do
      let s1 ← t.record_event evt s
      Except.ok (t, s1)
  else
    Except.ok (t, s)

/-- Method `Tracker.finalize`: release this handle by unsharing the
recorder (the Python handle itself holds no lifecycle state). -/
def Tracker.finalize (_t : Tracker) (s : EventRecorderState) :
    Except String EventRecorderState :=
  s.unshare

/-- Method `Tracker.Artifact`: pass-through to the recorder, defaulting a
`None` meta to the empty dict (Python defaults: empty prefix and persist
name, format `bin`). -/
def Tracker.artifact {A : Type} (_t : Tracker) (s : EventRecorderState)
    (data : A) (saveBytes : A → String) (pfx persist_name fmt : String)
    (meta : Option Dict) : ArtifactDataType × EventRecorderState :=
  s.save_artifact data saveBytes pfx persist_name fmt (meta.getD [])

/-- Entry half of `Tracker.span` (tracker.py lines 222 to 235): allocate the
span id, derive the child tracker carrying `span.id` / `span.name` in its
settings metadata, and record the `started` event (built on the parent,
recorded through the child). -/
def Tracker.spanEnter (t : Tracker) (name : String) (ts : String) (perf : Int)
    (s : EventRecorderState) :
    Except String (String × Tracker × EventRecorderState) := do
  let (span_id, s1) := s.next_span_id
  let (child, s2) := t.with_settings ""
    (some [("span.id", Val.str span_id), ("span.name", Val.str name)]) none s1
  let startEvt := t.create_event
    (some [("span.id", Val.str span_id), ("span.name", Val.str name),
           ("span.event", Val.str "started")]) "z.span" ts perf
  let s3 ← child.record_event startEvt s2
  Except.ok (span_id, child, s3)

/-- Exit half of `Tracker.span` (the `finally` block, lines 240 to 255):
optionally log the end of the span, then record the `stopped` event carrying
the elapsed milliseconds.  `elapsedMs` stands for the float computation
`(elapsed_ns / 10**6) * 100 // 100`. -/
def Tracker.spanExit (t : Tracker) (span_id name : String) (child : Tracker)
    (log_end_span : Bool) (elapsedMs : Int) (ts : String) (perf : Int)
    (s : EventRecorderState) : Except String EventRecorderState := do
  let s1 ←
    if log_end_span then do
      let (t2, sA) := child.with_fields
        [("span.id", Val.str span_id), ("span.name", Val.str name),
         ("span.elapsed_ms", Val.int elapsedMs)] s
      let (_, sB) ← t2.log "INFO" "span end" ts perf sA
      Except.ok sB
    else
      Except.ok s
  let stopEvt := t.create_event
    (some [("span.id", Val.str span_id), ("span.name", Val.str name),
           ("span.event", Val.str "stopped"),
           ("span.elapsed_ms", Val.int elapsedMs)]) "z.span" ts perf
  child.record_event stopEvt s1

/-- Method `Tracker.span`: context manager semantics.  The block of the caller is
`body`, yielding the child tracker; its boolean result is `false` when the
block raised.  An exception before the `yield` (from recording the start
event) propagates without running the exit half; the exit half always runs
after the block, whether it raised or not, exactly as `try ... finally`. -/
def Tracker.span (t : Tracker) (name : String) (log_end_span : Bool)
    (body : Tracker → EventRecorderState → Bool × EventRecorderState)
    (ts : String) (perf : Int) (elapsedMs : Int) (s : EventRecorderState) :
    Except String ((Bool × Tracker) × EventRecorderState) := do
  let (span_id, child, s3) ← t.spanEnter name ts perf s
  let (okBody, s4) := body child s3
  let s5 ← t.spanExit span_id name child log_end_span elapsedMs ts perf s4
  Except.ok ((okBody, child), s5)

/-- Modelled from the spec: `ztrack.create` (src/ztrack/__init__.py lines 10
to 22) builds a `LocalEventRecorder`, whose definition
(`ztrack/event_recorder.py`) is not among the sources; per spec sections 2
and 3 the recorder behaviour is that of `EventRecorder` (tracker.py), so the
recorder state is initialised with `EventRecorderState.init`.  The root
tracker is handed the recorder without a `share()` call, exactly as in the
source, with settings `TrackerSetting("default", {})`, empty fields and the
current performance counter as origin. -/
def ztrackCreate (result_dir : String) (dry_run : Bool) (fs : FileMap)
    (perfNow : Int) : Tracker × EventRecorderState :=
  ({ settings := { reporter := "default", meta := [], record_log_event := none },
     fields := [], perf_timer_ns := perfNow, tracks_buf := [] },
   EventRecorderState.init result_dir dry_run fs)

/-- Spec-side ordered shallow merge: fold each (optional) dict of `items`
into `base`, later items overriding earlier keys. -/
def mergeDicts (base : Dict) (items : List (Option Dict)) : Dict :=
  items.foldl (fun acc x => dunion acc (x.getD [])) base

theorem dget_cons_ne {p : String × Val} {d : Dict} {k : String}
    (h : ¬ p.1 = k) : dget (p :: d) k = dget d k := by
  unfold dget
  rw [List.find?_cons_of_neg]
  simpa using h

theorem dget_cons_eq {p : String × Val} (d : Dict) {k : String}
    (h : p.1 = k) : dget (p :: d) k = some p.2 := by
  unfold dget
  rw [List.find?_cons_of_pos]
  · rfl
  · simp [h]

theorem dget_replace_ne (d : Dict) (k : String) (v : Val) {k' : String}
    (h : ¬ k' = k) :
    dget (d.map (fun p => if p.1 = k then (k, v) else p)) k' = dget d k' := by
  induction d with
  | nil => rfl
  | cons p d ih =>
      by_cases hp : p.1 = k
      · rw [List.map_cons, if_pos hp,
          dget_cons_ne (by simpa using fun hh => h hh.symm),
          dget_cons_ne (fun hh => h (hp ▸ hh).symm)]
        exact ih
      · rw [List.map_cons, if_neg hp]
        by_cases hq : p.1 = k'
        · rw [dget_cons_eq _ hq, dget_cons_eq _ hq]
        · rw [dget_cons_ne hq, dget_cons_ne hq]
          exact ih

theorem dget_replace_self (d : Dict) (k : String) (v : Val)
    (hd : dhasKey d k = true) :
    dget (d.map (fun p => if p.1 = k then (k, v) else p)) k = some v := by
  induction d with
  | nil => simp [dhasKey] at hd
  | cons p d ih =>
      by_cases hp : p.1 = k
      · rw [List.map_cons, if_pos hp, dget_cons_eq _ rfl]
      · rw [List.map_cons, if_neg hp, dget_cons_ne hp]
        exact ih (by simpa [dhasKey, hp] using hd)

theorem dget_dset (d : Dict) (k : String) (v : Val) (k' : String) :
    dget (dset d k v) k' = if k' = k then some v else dget d k' := by
  unfold dset
  split
  · rename_i hany
    by_cases hk : k' = k
    · subst hk
      rw [if_pos rfl, dget_replace_self d k' v (by simpa [dhasKey] using hany)]
    · rw [if_neg hk, dget_replace_ne d k v hk]
  · rename_i hany
    by_cases hk : k' = k
    · subst hk
      rw [if_pos rfl]
      unfold dget
      rw [List.find?_append,
        List.find?_eq_none.mpr (fun x hx hpx => by
          exact absurd (List.any_eq_true.mpr ⟨x, hx, hpx⟩) hany)]
      simp [List.find?]
    · rw [if_neg hk]
      unfold dget
      rw [List.find?_append]
      have h2 : List.find? (fun p => decide (p.1 = k'))
          [(k, v)] = none := by
        have hkk : decide (k = k') = false :=
          decide_eq_false (fun hh => hk hh.symm)
        simp [List.find?, hkk]
      rw [h2]
      cases List.find? (fun p => decide (p.1 = k')) d <;> rfl

theorem dget_eq_none_of_not_hasKey {d : Dict} {k : String}
    (h : dhasKey d k = false) : dget d k = none := by
  unfold dget
  rw [List.find?_eq_none.mpr]
  · rfl
  · intro x hx hpx
    rw [dhasKey, Bool.eq_false_iff] at h
    exact h (List.any_eq_true.mpr ⟨x, hx, hpx⟩)

theorem dget_dunion_of_not_hasKey (a : Dict) {b : Dict} {k : String}
    (h : dhasKey b k = false) : dget (dunion a b) k = dget a k := by
  induction b generalizing a with
  | nil => rfl
  | cons p b ih =>
      simp only [dhasKey, List.any_cons, Bool.or_eq_false_iff] at h
      have hp : ¬(p.1 = k) := by simpa using h.1
      have hb : dhasKey b k = false := by simpa [dhasKey] using h.2
      show dget (dunion (dset a p.1 p.2) b) k = dget a k
      rw [ih (dset a p.1 p.2) hb, dget_dset, if_neg (fun hh => hp hh.symm)]

theorem dget_dunion_nodup (a : Dict) {b : Dict}
    (hb : NodupKeys b) (k : String) :
    dget (dunion a b) k = (dget b k).orElse (fun _ => dget a k) := by
  induction b generalizing a with
  | nil => rfl
  | cons p b ih =>
      have hnd : NodupKeys b := by
        simpa [NodupKeys] using (List.nodup_cons.mp hb).2
      have hnm : p.1 ∉ b.map Prod.fst := (List.nodup_cons.mp hb).1
      show dget (dunion (dset a p.1 p.2) b) k =
        (dget (p :: b) k).orElse (fun _ => dget a k)
      rw [ih (dset a p.1 p.2) hnd]
      by_cases hk : k = p.1
      · have hbk : dhasKey b k = false := by
          rw [dhasKey, Bool.eq_false_iff]
          intro hc
          obtain ⟨x, hx, hxk⟩ := List.any_eq_true.mp hc
          exact hnm
            (List.mem_map.mpr ⟨x, hx, ((of_decide_eq_true hxk).trans hk).symm ▸ rfl⟩)
        rw [dget_eq_none_of_not_hasKey hbk, dget_dset, if_pos hk,
          dget_cons_eq _ hk.symm]
        rfl
      · rw [dget_dset, if_neg hk, dget_cons_ne (fun hh => hk hh.symm)]

theorem dunion_nil (a : Dict) : dunion a [] = a := rfl

theorem applyItemDict_eq (acc : Dict) (x : Option Dict) :
    applyItemDict acc x = dunion acc (x.getD []) := by
  cases x with
  | none => rfl
  | some f =>
      cases f with
      | nil => rfl
      | cons p f => rfl

theorem length_le_dset (d : Dict) (k : String) (v : Val) :
    d.length ≤ (dset d k v).length := by
  unfold dset
  split
  · simp
  · simp

theorem length_le_dunion (a b : Dict) : a.length ≤ (dunion a b).length := by
  induction b generalizing a with
  | nil => exact Nat.le_refl _
  | cons p b ih =>
      exact Nat.le_trans (length_le_dset a p.1 p.2) (ih (dset a p.1 p.2))

theorem length_le_mergeDicts (base : Dict) (items : List (Option Dict)) :
    base.length ≤ (mergeDicts base items).length := by
  induction items generalizing base with
  | nil => exact Nat.le_refl _
  | cons x items ih =>
      exact Nat.le_trans (length_le_dunion base (x.getD []))
        (ih (dunion base (x.getD [])))

theorem foldl_applyItemDict_fields (l : List TrackItem) (base : Dict) :
    l.foldl (fun acc it => applyItemDict acc it.fields) base =
      mergeDicts base (l.map TrackItem.fields) := by
  induction l generalizing base with
  | nil => rfl
  | cons it l ih =>
      show l.foldl _ (applyItemDict base it.fields) = _
      rw [applyItemDict_eq, ih]
      rfl

theorem foldl_applyItemDict_meta (l : List TrackItem) (base : Dict) :
    l.foldl (fun acc it => applyItemDict acc it.meta) base =
      mergeDicts base (l.map TrackItem.meta) := by
  induction l generalizing base with
  | nil => rfl
  | cons it l ih =>
      show l.foldl _ (applyItemDict base it.meta) = _
      rw [applyItemDict_eq, ih]
      rfl

theorem rget_closed_false {m : ReporterMap} {k : String} {r : EventReporter}
    (hall : allOpen m = true) (hr : rget m k = some r) : r.closed = false := by
  unfold rget at hr
  cases hf : m.find? (fun q => q.1 = k) with
  | none => rw [hf] at hr; exact absurd hr (by simp)
  | some q =>
      rw [hf] at hr
      have hq : q ∈ m := List.mem_of_find?_eq_some hf
      have h2 := List.all_eq_true.mp hall q hq
      have h3 : q.2 = r := by simpa using hr
      rw [← h3]
      simpa using h2

theorem allOpen_rset {m : ReporterMap} {k : String} {r : EventReporter}
    (hall : allOpen m = true) (hr : r.closed = false) :
    allOpen (rset m k r) = true := by
  unfold rset
  split
  · rw [allOpen, List.all_eq_true]
    intro x hx
    obtain ⟨q, hq, hqx⟩ := List.mem_map.mp hx
    by_cases hk : q.1 = k
    · rw [if_pos hk] at hqx
      rw [← hqx]
      simpa using hr
    · rw [if_neg hk] at hqx
      rw [← hqx]
      exact List.all_eq_true.mp hall q hq
  · rw [allOpen, List.all_eq_true]
    intro x hx
    rcases List.mem_append.mp hx with hx1 | hx2
    · exact List.all_eq_true.mp hall x hx1
    · have : x = (k, r) := by simpa using hx2
      rw [this]
      simpa using hr

theorem EventReporter.flush_ok (r : EventReporter) (fs : FileMap)
    (h : r.closed = false) :
    r.flush fs = Except.ok ({ r with buffers := [] },
      fset fs r.outPath (fget fs r.outPath ++ r.buffers)) := by
  unfold EventReporter.flush
  rw [if_neg]
  simp [h]

theorem EventReporter.record_event_ok (r : EventReporter) (fs : FileMap)
    (evt : Event) (h : r.closed = false) :
    ∃ r' fs', r.record_event fs evt =
      Except.ok ({ evt with id := toString (r.evt_id + 1) }, r', fs') ∧
      r'.closed = false ∧ r'.name = r.name ∧ r'.outPath = r.outPath ∧
      r'.evt_id = r.evt_id + 1 ∧ r'.num_buffers = r.num_buffers := by
  unfold EventReporter.record_event EventReporter.get_evt_id
  dsimp only
  split
  · rw [EventReporter.flush_ok]
    · exact ⟨_, _, rfl, h, rfl, rfl, rfl, rfl⟩
    · exact h
  · exact ⟨_, _, rfl, h, rfl, rfl, rfl, rfl⟩

/-- Characterization of a successful `EventRecorder.record_event` when every
held reporter is open: it succeeds, appends exactly one entry to the ghost
event log whose event differs from the input at most in its id, keeps every
reporter open, and leaves counters, share count and finalize log alone. -/
theorem recorder_record_event_ok (s : EventRecorderState) (evt : Event) (rn : String)
    (h : allOpen s.reporters = true) :
    ∃ e s', s.record_event evt rn = Except.ok s' ∧
      s'.eventLog = s.eventLog ++ [(e, rn)] ∧
      e.type = evt.type ∧ e.meta = evt.meta ∧ e.data = evt.data ∧
      e.ts = evt.ts ∧ e.perf_ts = evt.perf_ts ∧
      allOpen s'.reporters = true ∧
      s'.share_cnt = s.share_cnt ∧ s'.span_id = s.span_id ∧
      s'.artifact_id = s.artifact_id ∧ s'.dry_run = s.dry_run ∧
      s'.result_dir = s.result_dir ∧ s'.finalizeLog = s.finalizeLog := by
  unfold EventRecorderState.record_event
  by_cases hd : s.dry_run = true
  · rw [if_pos hd]
    exact ⟨evt, { s with eventLog := s.eventLog ++ [(evt, rn)] },
      rfl, rfl, rfl, rfl, rfl, rfl, rfl, h, rfl, rfl, rfl, rfl, rfl, rfl⟩
  · rw [if_neg hd]
    unfold EventRecorderState.get_reporter
    cases hr : rget s.reporters rn with
    | some r =>
        have hro : r.closed = false := rget_closed_false h hr
        obtain ⟨r', fs', heq, hc, _, _, _, _⟩ :=
          r.record_event_ok s.files evt hro
        dsimp only
        rw [heq]
        exact ⟨_, _, rfl, rfl, rfl, rfl, rfl, rfl, rfl,
          allOpen_rset h hc, rfl, rfl, rfl, rfl, rfl, rfl⟩
    | none =>
        dsimp only [EventReporter.mkNew]
        obtain ⟨r', fs', heq, hc, _, _, _, _⟩ :=
          EventReporter.record_event_ok
            { name := rn,
              outPath := s.result_dir ++ "/" ++ rn ++ ".event.json",
              num_buffers := 10, buffers := [], evt_id := 0, closed := false }
            (ftouch s.files (s.result_dir ++ "/" ++ rn ++ ".event.json"))
            evt rfl
        rw [heq]
        exact ⟨_, _, rfl, rfl, rfl, rfl, rfl, rfl, rfl,
          allOpen_rset (allOpen_rset h rfl) hc, rfl, rfl, rfl, rfl, rfl, rfl⟩

theorem EventReporter.finalize_ok (r : EventReporter) (fs : FileMap)
    (h : r.closed = false) :
    r.finalize fs = Except.ok
      ({ r with
         buffers := []
         closed := true },
       fset fs r.outPath (fget fs r.outPath ++ r.buffers)) := by
  unfold EventReporter.finalize
  rw [EventReporter.flush_ok _ _ h]
  rfl

theorem finalizeReporters_ok (rs : ReporterMap) (fs : FileMap)
    (log : List String) (h : allOpen rs = true) :
    ∃ fs', finalizeReporters rs fs log =
      Except.ok (fs', log ++ rs.map Prod.fst) := by
  induction rs generalizing fs log with
  | nil => exact ⟨fs, by simp [finalizeReporters]⟩
  | cons q rs ih =>
      have hq : q.2.closed = false := by
        have := List.all_eq_true.mp h q (List.mem_cons_self q rs)
        simpa using this
      have hrs : allOpen rs = true := by
        rw [allOpen, List.all_eq_true]
        intro x hx
        exact List.all_eq_true.mp h x (List.mem_cons_of_mem q hx)
      obtain ⟨fs', hih⟩ := ih
        (fset fs q.2.outPath (fget fs q.2.outPath ++ q.2.buffers)) (log ++ [q.1]) hrs
      refine ⟨fs', ?_⟩
      unfold finalizeReporters
      rw [EventReporter.finalize_ok _ _ hq]
      show finalizeReporters rs
        (fset fs q.2.outPath (fget fs q.2.outPath ++ q.2.buffers))
        (log ++ [q.1]) = _
      rw [hih]
      simp

theorem finalizeAll_ok (s : EventRecorderState)
    (h : allOpen s.reporters = true) :
    ∃ fs', s.finalizeAll = Except.ok
      { s with
        reporters := []
        files := fs'
        finalizeLog := s.finalizeLog ++ s.reporters.map Prod.fst } := by
  obtain ⟨fs', hfr⟩ := finalizeReporters_ok s.reporters s.files s.finalizeLog h
  refine ⟨fs', ?_⟩
  unfold EventRecorderState.finalizeAll
  rw [hfr]
  rfl

theorem unshare_of_ne_zero (s : EventRecorderState)
    (h : ¬ s.share_cnt - 1 = 0) :
    s.unshare = Except.ok { s with share_cnt := s.share_cnt - 1 } := by
  unfold EventRecorderState.unshare
  rw [if_neg]
  simpa using h

theorem unshare_of_one (s : EventRecorderState) (h1 : s.share_cnt = 1)
    (h : allOpen s.reporters = true) :
    ∃ fs', s.unshare = Except.ok
      { s with
        share_cnt := 0
        reporters := []
        files := fs'
        finalizeLog := s.finalizeLog ++ s.reporters.map Prod.fst } := by
  obtain ⟨fs', hfa⟩ :=
    finalizeAll_ok { s with share_cnt := s.share_cnt - 1 } (by simpa using h)
  refine ⟨fs', ?_⟩
  unfold EventRecorderState.unshare
  rw [if_pos (by rw [h1]; rfl)]
  rw [hfa]
  have h0 : s.share_cnt - 1 = 0 := by rw [h1]; rfl
  simp [h0]

/-- Finalizing a sequence of `n` Tracker handles one after the other: `n`
successive `unshare` calls on the shared recorder. -/
def iterUnshare (s : EventRecorderState) : Nat → Except String EventRecorderState
  | 0 => Except.ok s
  | n + 1 => (s.unshare).bind (fun s1 => iterUnshare s1 n)

theorem fget_cons_ne {q : String × List Event} {fs : FileMap} {p : String}
    (h : ¬ q.1 = p) : fget (q :: fs) p = fget fs p := by
  unfold fget
  rw [List.find?_cons_of_neg]
  simpa using h

theorem fget_cons_eq {q : String × List Event} (fs : FileMap) {p : String}
    (h : q.1 = p) : fget (q :: fs) p = q.2 := by
  unfold fget
  rw [List.find?_cons_of_pos]
  · rfl
  · simp [h]

theorem fget_fset_self (fs : FileMap) (p : String) (c : List Event) :
    fget (fset fs p c) p = c := by
  unfold fset
  split
  · rename_i h
    induction fs with
    | nil => simp at h
    | cons q fs ih =>
        by_cases hq : q.1 = p
        · rw [List.map_cons, if_pos hq, fget_cons_eq _ rfl]
        · rw [List.map_cons, if_neg hq, fget_cons_ne hq]
          exact ih (by simpa [List.any_cons, hq] using h)
  · rename_i h
    unfold fget
    rw [List.find?_append, List.find?_eq_none.mpr
      (fun x hx hpx => absurd (List.any_eq_true.mpr ⟨x, hx, hpx⟩) h)]
    simp [List.find?]

theorem fget_ftouch_self (fs : FileMap) (p : String) :
    fget (ftouch fs p) p = fget fs p := by
  unfold ftouch
  split
  · rfl
  · rename_i h
    have hn : List.find? (fun q => decide (q.1 = p)) fs = none :=
      List.find?_eq_none.mpr
        (fun x hx hpx => absurd (List.any_eq_true.mpr ⟨x, hx, hpx⟩) h)
    unfold fget
    rw [List.find?_append, hn]
    simp [List.find?]

/-- C5: for every pair of TrackerSetting values `a` and `b`, `merge a b` has
the reporter of `b` when that is non-empty and the reporter of `a`
otherwise; its meta is the key-wise union of `a.meta` and `b.meta` with the
values of `b` winning on conflict; and its `record_log_event` equals the
value of `b` when that is explicitly set and the value of `a` when it is
unset.  (`NodupKeys b.meta` states that `b.meta` is a real dict, with
pairwise distinct keys.) -/
theorem tracker_setting_merge_spec (a b : TrackerSetting)
    (hb : NodupKeys b.meta) :
    (b.reporter ≠ "" → (a.merge b).reporter = b.reporter) ∧
    (b.reporter = "" → (a.merge b).reporter = a.reporter) ∧
    (∀ k, dget (a.merge b).meta k =
      (dget b.meta k).orElse (fun _ => dget a.meta k)) ∧
    (∀ v, b.record_log_event = some v →
      (a.merge b).record_log_event = some v) ∧
    (b.record_log_event = none →
      (a.merge b).record_log_event = a.record_log_event) := by
  refine ⟨?_, ?_, ?_, ?_, ?_⟩
  · intro h
    unfold TrackerSetting.merge
    rw [if_pos]
    intro hlen
    refine h (String.ext ?_)
    simpa using List.length_eq_zero.mp hlen
  · intro h
    unfold TrackerSetting.merge
    rw [if_neg]
    simp [h]
  · intro k
    exact dget_dunion_nodup a.meta hb k
  · intro v hv
    unfold TrackerSetting.merge
    rw [hv]
  · intro hv
    unfold TrackerSetting.merge
    rw [hv]

def c5a : TrackerSetting :=
  { reporter := "old_rep", meta := [("k", Val.str "old"), ("j", Val.int 1)],
    record_log_event := some false }

def c5b : TrackerSetting :=
  { reporter := "", meta := [("k", Val.str "new")], record_log_event := none }

/-- Witness for C5 at concrete settings: the empty new reporter keeps the
old one, the new meta value wins at the shared key `k`, and the unset
`record_log_event` keeps the old value. -/
theorem tracker_setting_merge_spec_witness :
    (c5a.merge c5b).reporter = "old_rep" ∧
    dget (c5a.merge c5b).meta "k" =
      (dget c5b.meta "k").orElse (fun _ => dget c5a.meta "k") ∧
    (c5a.merge c5b).record_log_event = c5a.record_log_event :=
  ⟨(tracker_setting_merge_spec c5a c5b (by decide)).2.1 rfl,
   (tracker_setting_merge_spec c5a c5b (by decide)).2.2.1 "k",
   (tracker_setting_merge_spec c5a c5b (by decide)).2.2.2.2 rfl⟩

/-- C6 (amended): `EventReporter.finalize` performs a final flush of all
buffered events (the file gains exactly the buffered events, in order) and
closes the stream; it is safe to call exactly once, but it is NOT
idempotent: a second call on the already-closed reporter raises (Python
`ValueError` from flushing a closed stream) instead of being a no-op. -/
theorem reporter_finalize_flush_close_once (r : EventReporter) (fs : FileMap)
    (h : r.closed = false) :
    r.finalize fs = Except.ok
      ({ r with
         buffers := []
         closed := true },
       fset fs r.outPath (fget fs r.outPath ++ r.buffers)) ∧
    fget (fset fs r.outPath (fget fs r.outPath ++ r.buffers)) r.outPath =
      fget fs r.outPath ++ r.buffers ∧
    EventReporter.finalize
      { r with
        buffers := []
        closed := true }
      (fset fs r.outPath (fget fs r.outPath ++ r.buffers)) =
      Except.error "ValueError: I-O operation on closed file" :=
  ⟨EventReporter.finalize_ok r fs h,
   fget_fset_self fs r.outPath (fget fs r.outPath ++ r.buffers),
   rfl⟩

def c6r : EventReporter :=
  { name := "default", outPath := "res/default.event.json",
    num_buffers := 10,
    buffers := [{ id := "1", type := "z.tk", ts := "t", perf_ts := 0,
                  meta := [], data := [("name", Val.str "hello")] }],
    evt_id := 1, closed := false }

/-- Witness for C6 (amended) at a concrete open reporter holding one
buffered event. -/
theorem reporter_finalize_flush_close_once_witness :
    c6r.finalize [] = Except.ok
      ({ c6r with
         buffers := []
         closed := true },
       fset [] c6r.outPath (fget [] c6r.outPath ++ c6r.buffers)) ∧
    fget (fset [] c6r.outPath (fget [] c6r.outPath ++ c6r.buffers))
      c6r.outPath = fget [] c6r.outPath ++ c6r.buffers ∧
    EventReporter.finalize
      { c6r with
        buffers := []
        closed := true }
      (fset [] c6r.outPath (fget [] c6r.outPath ++ c6r.buffers)) =
      Except.error "ValueError: I-O operation on closed file" :=
  reporter_finalize_flush_close_once c6r [] rfl

/-- Counterexample to C6 as stated: calling `finalize` a second time on the
same reporter is NOT safe; on the concrete reporter `c6r` the first call
succeeds and the second call raises, rather than leaving the reporter in
the state after the first call. -/
theorem reporter_finalize_not_idempotent_cex :
    ((c6r.finalize []).bind (fun x => x.1.finalize x.2)) =
      Except.error "ValueError: I-O operation on closed file" := by
  rfl

/-- C10: `clone`, `with_settings` and `with_fields` each return a Tracker
whose pending-track-item buffer is empty, even when the source Tracker has
buffered uncommitted items; the source Tracker value itself is pure data in
this embedding and is not modified by any of the three operations. -/
theorem derived_tracker_empty_buffer (t : Tracker) (s : EventRecorderState)
    (_h : t.tracks_buf ≠ []) (reporter : String) (meta : Option Dict)
    (rle : Option Bool) (flds : Dict) :
    (t.clone s).1.tracks_buf = [] ∧
    (t.with_settings reporter meta rle s).1.tracks_buf = [] ∧
    (t.with_fields flds s).1.tracks_buf = [] :=
  ⟨rfl, rfl, rfl⟩

def c10t : Tracker :=
  { settings := { reporter := "default", meta := [], record_log_event := none },
    fields := [("step", Val.int 3)], perf_timer_ns := 0,
    tracks_buf := [{ fields := some [("loss", Val.int 1)], meta := none }] }

/-- Witness for C10 at a concrete Tracker with one buffered item. -/
theorem derived_tracker_empty_buffer_witness :
    (c10t.clone (EventRecorderState.init "res" false [])).1.tracks_buf = [] ∧
    (c10t.with_settings "" (some [("m", Val.int 2)]) none
      (EventRecorderState.init "res" false [])).1.tracks_buf = [] ∧
    (c10t.with_fields [("f", Val.int 4)]
      (EventRecorderState.init "res" false [])).1.tracks_buf = [] :=
  derived_tracker_empty_buffer c10t (EventRecorderState.init "res" false [])
    (by decide) "" (some [("m", Val.int 2)]) none [("f", Val.int 4)]

/-- C8: every artifact reference returned by `save_artifact` has kind field
`artifact`, carries the supplied metadata, and points (via a relative file
name, `url`) at a file inside the artifacts directory: outside dry run the
saved payload lands at `{result_dir}/artifacts/{url}`.  The reference never
contains the raw payload: it is identical for every payload and save
callback, even of a different type. -/
theorem save_artifact_ref_shape {A B : Type} (s : EventRecorderState)
    (data : A) (saveBytes : A → String) (pfx persist_name fmt : String)
    (meta : Dict) (data2 : B) (saveBytes2 : B → String) :
    (s.save_artifact data saveBytes pfx persist_name fmt meta).1.type_ =
      "artifact" ∧
    (s.save_artifact data saveBytes pfx persist_name fmt meta).1.meta =
      meta ∧
    (s.save_artifact data saveBytes pfx persist_name fmt meta).1 =
      (s.save_artifact data2 saveBytes2 pfx persist_name fmt meta).1 ∧
    (s.dry_run = false →
      (s.save_artifact data saveBytes pfx persist_name fmt meta).2.artifactFiles
        = s.artifactFiles ++
          [(s.result_dir ++ "/artifacts/" ++
            (s.save_artifact data saveBytes pfx persist_name fmt meta).1.url,
            saveBytes data)]) := by
  refine ⟨rfl, rfl, rfl, ?_⟩
  intro hdry
  simp [EventRecorderState.save_artifact, EventRecorderState.get_artifact_id,
    hdry]

def c8s : EventRecorderState := EventRecorderState.init "res" false []

/-- Witness for C8 at a concrete recorder and two payloads of different
types. -/
theorem save_artifact_ref_shape_witness :
    (c8s.save_artifact (7 : Nat) (fun n => toString n) "" "" ""
      [("m", Val.int 1)]).1.type_ = "artifact" ∧
    (c8s.save_artifact (7 : Nat) (fun n => toString n) "" "" ""
      [("m", Val.int 1)]).1.meta = [("m", Val.int 1)] ∧
    (c8s.save_artifact (7 : Nat) (fun n => toString n) "" "" ""
      [("m", Val.int 1)]).1 =
      (c8s.save_artifact "payload" (fun x => x) "" "" ""
        [("m", Val.int 1)]).1 ∧
    (c8s.dry_run = false →
      (c8s.save_artifact (7 : Nat) (fun n => toString n) "" "" ""
        [("m", Val.int 1)]).2.artifactFiles
        = c8s.artifactFiles ++
          [(c8s.result_dir ++ "/artifacts/" ++
            (c8s.save_artifact (7 : Nat) (fun n => toString n) "" "" ""
              [("m", Val.int 1)]).1.url,
            (fun n => toString n) (7 : Nat))]) :=
  save_artifact_ref_shape c8s (7 : Nat) (fun n => toString n) "" "" ""
    [("m", Val.int 1)] "payload" (fun x => x)

theorem rset_single (k : String) (r0 r1 : EventReporter) :
    rset [(k, r0)] k r1 = [(k, r1)] := by
  unfold rset
  rw [if_pos (by simp)]
  simp

theorem fresh_record_event (rn path : String) (fs : FileMap) (evt : Event) :
    EventReporter.record_event
      { name := rn, outPath := path, num_buffers := 10, buffers := [],
        evt_id := 0, closed := false } fs evt =
      Except.ok ({ evt with id := "1" },
        { name := rn, outPath := path, num_buffers := 10,
          buffers := [{ evt with id := "1" }], evt_id := 1, closed := false },
        fs) := by
  dsimp only [EventReporter.record_event, EventReporter.get_evt_id]
  rfl

/-- C9: once the reporter map of the recorder has been cleared (share count at
zero, all reporters finalized), a further `record_event` outside dry run
raises no error: it lazily creates a fresh reporter for the channel,
reopens the event file in append mode (existing content preserved), and the
id counter of the fresh reporter restarts, assigning the recorded event id 1. -/
theorem record_event_after_finalize_recreates (s : EventRecorderState)
    (evt : Event) (rn : String) (hrep : s.reporters = [])
    (hdry : s.dry_run = false) (_hcnt : s.share_cnt = 0) :
    s.record_event evt rn = Except.ok
      { s with
        reporters := [(rn,
          { name := rn
            outPath := s.result_dir ++ "/" ++ rn ++ ".event.json"
            num_buffers := 10
            buffers := [{ evt with id := "1" }]
            evt_id := 1
            closed := false })]
        files := ftouch s.files (s.result_dir ++ "/" ++ rn ++ ".event.json")
        eventLog := s.eventLog ++ [({ evt with id := "1" }, rn)] } ∧
    fget (ftouch s.files (s.result_dir ++ "/" ++ rn ++ ".event.json"))
      (s.result_dir ++ "/" ++ rn ++ ".event.json") =
      fget s.files (s.result_dir ++ "/" ++ rn ++ ".event.json") := by
  constructor
  · unfold EventRecorderState.record_event
    rw [if_neg (by simp [hdry])]
    unfold EventRecorderState.get_reporter
    rw [show rget s.reporters rn = none from by rw [hrep]; rfl]
    dsimp only [EventReporter.mkNew]
    rw [show rset s.reporters rn
        { name := rn,
          outPath := s.result_dir ++ "/" ++ rn ++ ".event.json",
          num_buffers := 10, buffers := [], evt_id := 0, closed := false } =
        [(rn,
          { name := rn,
            outPath := s.result_dir ++ "/" ++ rn ++ ".event.json",
            num_buffers := 10, buffers := [], evt_id := 0, closed := false })]
      from by rw [hrep]; rfl]
    rw [fresh_record_event]
    change Except.ok _ = _
    rw [rset_single]
  · exact fget_ftouch_self s.files (s.result_dir ++ "/" ++ rn ++ ".event.json")

def c9s : EventRecorderState :=
  { result_dir := "res", dry_run := false, reporters := [], share_cnt := 0,
    artifact_id := 1002, span_id := 2001,
    files := [("res/default.event.json",
      [{ id := "1", type := "z.tk", ts := "t0", perf_ts := 0, meta := [],
         data := [("old", Val.int 1)] }])],
    artifactFiles := [], eventLog := [], finalizeLog := ["default"] }

def c9evt : Event :=
  { id := "", type := "z.tk", ts := "t1", perf_ts := 5, meta := [],
    data := [("name", Val.str "hello")] }

/-- Witness for C9 at a concrete finalized recorder whose event file
already holds one event from the previous reporter lifetime. -/
theorem record_event_after_finalize_recreates_witness :
    c9s.record_event c9evt "default" = Except.ok
      { c9s with
        reporters := [("default",
          { name := "default"
            outPath := c9s.result_dir ++ "/" ++ "default" ++ ".event.json"
            num_buffers := 10
            buffers := [{ c9evt with id := "1" }]
            evt_id := 1
            closed := false })]
        files := ftouch c9s.files
          (c9s.result_dir ++ "/" ++ "default" ++ ".event.json")
        eventLog := c9s.eventLog ++ [({ c9evt with id := "1" }, "default")] } ∧
    fget (ftouch c9s.files
        (c9s.result_dir ++ "/" ++ "default" ++ ".event.json"))
      (c9s.result_dir ++ "/" ++ "default" ++ ".event.json") =
      fget c9s.files (c9s.result_dir ++ "/" ++ "default" ++ ".event.json") :=
  record_event_after_finalize_recreates c9s c9evt "default" rfl rfl rfl

theorem except_bind_ok {A B : Type} (a : A) (f : A → Except String B) :
    (Except.ok a : Except String A).bind f = f a := rfl

/-- C2 (amended): when the share count of the recorder is `N ≥ 1` (which, since
only `clone` calls `share()`, means `N` live clones regardless of the root
handle), finalizing `N` handles performs exactly one `finalize` per held
reporter (each reporter name is appended to the finalize log exactly once)
and leaves the reporter map empty with share count `0`; one further
`finalize` (for instance the root handle, whose construction never
incremented the count) merely drives the count to `-1` and closes nothing
further.  The stronger reading of the claim — that no file is closed while the
root is unfinalized — fails, see the counterexample. -/
theorem recorder_refcount_finalize_once (s : EventRecorderState) (N : Nat)
    (hN : 1 ≤ N) (hcnt : s.share_cnt = (N : Int))
    (hopen : allOpen s.reporters = true) :
    ∃ sN, iterUnshare s N = Except.ok sN ∧
      sN.reporters = [] ∧ sN.share_cnt = 0 ∧
      sN.finalizeLog = s.finalizeLog ++ s.reporters.map Prod.fst ∧
      sN.unshare = Except.ok { sN with share_cnt := -1 } := by
  induction N generalizing s with
  | zero => omega
  | succ n ih =>
      cases n with
      | zero =>
          obtain ⟨fs', hu⟩ := unshare_of_one s (by exact_mod_cast hcnt) hopen
          refine ⟨{ s with
                    share_cnt := 0
                    reporters := []
                    files := fs'
                    finalizeLog := s.finalizeLog ++ s.reporters.map Prod.fst },
            ?_, rfl, rfl, rfl, ?_⟩
          · show (s.unshare).bind (fun s1 => iterUnshare s1 0) = _
            rw [hu, except_bind_ok]
            rfl
          · rw [unshare_of_ne_zero _ (by show ¬ (0 : Int) - 1 = 0; decide)]
            rfl
      | succ m =>
          have hne : ¬ s.share_cnt - 1 = 0 := by
            rw [hcnt]
            omega
          have hu := unshare_of_ne_zero s hne
          obtain ⟨sN, hiter, hrep, hcnt0, hlog, hroot⟩ :=
            ih { s with share_cnt := s.share_cnt - 1 }
              (by omega)
              (by
                show s.share_cnt - 1 = ((m + 1 : Nat) : Int)
                rw [hcnt]
                push_cast
                omega)
              hopen
          refine ⟨sN, ?_, hrep, hcnt0, hlog, hroot⟩
          show (s.unshare).bind (fun s1 => iterUnshare s1 (m + 1)) = _
          rw [hu, except_bind_ok, hiter]

def c2s : EventRecorderState :=
  { result_dir := "res", dry_run := false,
    reporters := [("default",
      { name := "default", outPath := "res/default.event.json",
        num_buffers := 10, buffers := [], evt_id := 1, closed := false })],
    share_cnt := 2, artifact_id := 1000, span_id := 2000,
    files := [("res/default.event.json", [])], artifactFiles := [],
    eventLog := [], finalizeLog := [] }

/-- Witness for C2 (amended): a recorder shared by two clones, holding one
open reporter; two unshares empty the reporter map, reach share count 0 and
finalize `default` exactly once. -/
theorem recorder_refcount_finalize_once_witness :
    (iterUnshare c2s 2).toOption.map
      (fun x => (x.reporters, x.share_cnt, x.finalizeLog)) =
      some ([], 0, ["default"]) := by
  obtain ⟨sN, heq, hrep, hzero, hlog, hroot⟩ :=
    recorder_refcount_finalize_once c2s 2 (by decide) (by decide) (by decide)
  rw [heq]
  simp only [Except.toOption, Option.map]
  rw [hrep, hzero, hlog]
  rfl

/-- The run refuting C2 as stated: `create` a root tracker (share count 0:
the root does not `share()`), commit one tracked event (creating the
`default` reporter), `clone` once (share count 1), then finalize ONLY the
clone. -/
def c2cexRun : Except String EventRecorderState :=
  let t0 := (ztrackCreate "res" false [] 0).1
  let s0 := (ztrackCreate "res" false [] 0).2
  (t0.track (some [("a", Val.int 1)]) none true "t" 0 s0).bind (fun p =>
    let cloned := t0.clone p.2
    cloned.1.finalize cloned.2)

/-- Counterexample to C2 as stated: after finalizing only the clone — the
root handle is never finalized — the share count is already 0, the reporter
map is empty, and the `default` reporter has been finalized (its file
closed), contradicting the claim that no reporter file is closed while any
Tracker handle (including the root) has not yet been finalized. -/
theorem recorder_refcount_root_not_counted_cex :
    c2cexRun.toOption.map
      (fun x => (x.reporters, x.finalizeLog, x.share_cnt)) =
      some ([], ["default"], 0) := by
  rfl

/-- A sequence of deferred `track(fields, meta, commit=false)` calls, each
feeding the returned Tracker into the next. -/
def runTracks (ts : String) (perf : Int) :
    Tracker × EventRecorderState → List (Option Dict × Option Dict) →
    Except String (Tracker × EventRecorderState)
  | p, [] => Except.ok p
  | p, it :: rest =>
      (p.1.track it.1 it.2 false ts perf p.2).bind
        (fun q => runTracks ts perf q rest)

theorem track_nocommit (t : Tracker) (f m : Option Dict) (ts : String)
    (perf : Int) (s : EventRecorderState) :
    t.track f m false ts perf s =
      Except.ok ({ t with
                   tracks_buf := t.tracks_buf ++ [{ fields := f, meta := m }] },
        s) := rfl

theorem runTracks_ok (ts : String) (perf : Int)
    (items : List (Option Dict × Option Dict)) (t : Tracker)
    (s : EventRecorderState) :
    runTracks ts perf (t, s) items =
      Except.ok ({ t with
                   tracks_buf := t.tracks_buf ++
                     items.map (fun it => { fields := it.1, meta := it.2 }) },
        s) := by
  induction items generalizing t with
  | nil => simp [runTracks]
  | cons it rest ih =>
      show (t.track it.1 it.2 false ts perf s).bind
        (fun q => runTracks ts perf q rest) = _
      rw [track_nocommit, except_bind_ok, ih]
      simp

theorem create_event_some_meta (t : Tracker) (ms : Dict) (type ts : String)
    (perf : Int) :
    (t.create_event (some ms) type ts perf).meta =
      if ms.isEmpty then t.settings.meta else dunion ms t.settings.meta := rfl

theorem meta_merge_eq (t : Tracker) (l : List TrackItem) :
    (if (l.foldl (fun acc it => applyItemDict acc it.meta)
          t.settings.meta).isEmpty
     then t.settings.meta
     else dunion (l.foldl (fun acc it => applyItemDict acc it.meta)
       t.settings.meta) t.settings.meta) =
    dunion (mergeDicts t.settings.meta (l.map TrackItem.meta))
      t.settings.meta := by
  rw [foldl_applyItemDict_meta]
  by_cases hemp : (mergeDicts t.settings.meta (l.map TrackItem.meta)).isEmpty
    = true
  · have hm0 : mergeDicts t.settings.meta (l.map TrackItem.meta) = [] := by
      cases hc : mergeDicts t.settings.meta (l.map TrackItem.meta) with
      | nil => rfl
      | cons a l2 => rw [hc] at hemp; simp [List.isEmpty] at hemp
    have hsm : t.settings.meta = [] := by
      have hle := length_le_mergeDicts t.settings.meta (l.map TrackItem.meta)
      rw [hm0] at hle
      exact List.length_eq_zero.mp (Nat.le_zero.mp hle)
    rw [if_pos hemp, hm0, hsm]
    rfl
  · rw [if_neg hemp]

/-- Characterization of one committing `track` call when every reporter is
open: the returned Tracker has an empty buffer, exactly one event is
recorded, its type is `z.tk`, its data is the ordered merge of the field
overlay with the fields of every buffered item, and its meta is the merge of the
settings metadata with the meta of every buffered item RE-OVERRIDDEN by the
settings metadata (`_create_event` folds the settings meta over the merged
meta). -/
theorem track_commit_ok (t : Tracker) (f m : Option Dict) (ts : String)
    (perf : Int) (s : EventRecorderState)
    (hopen : allOpen s.reporters = true) :
    ∃ e rep s2,
      t.track f m true ts perf s =
        Except.ok ({ t with tracks_buf := [] }, s2) ∧
      s2.eventLog = s.eventLog ++ [(e, rep)] ∧
      e.type = "z.tk" ∧
      e.data = mergeDicts t.fields
        ((t.tracks_buf ++ [({ fields := f, meta := m } : TrackItem)]).map
          TrackItem.fields) ∧
      e.meta = dunion
        (mergeDicts t.settings.meta
          ((t.tracks_buf ++ [({ fields := f, meta := m } : TrackItem)]).map
            TrackItem.meta))
        t.settings.meta ∧
      allOpen s2.reporters = true ∧
      s2.share_cnt = s.share_cnt ∧ s2.dry_run = s.dry_run ∧
      s2.finalizeLog = s.finalizeLog := by
  obtain ⟨e, s2, heq, hlog, htype, hmeta, hdata, hts, hperf, hopen2, hsh,
    hsp, har, hdry, hres, hfin⟩ :=
    recorder_record_event_ok s
      { ({ t with tracks_buf := [] } : Tracker).create_event
          (some ((t.tracks_buf ++
            [({ fields := f, meta := m } : TrackItem)]).foldl
              (fun acc it => applyItemDict acc it.meta) t.settings.meta))
          "" ts perf with
        type := "z.tk"
        data := (t.tracks_buf ++
          [({ fields := f, meta := m } : TrackItem)]).foldl
            (fun acc it => applyItemDict acc it.fields) t.fields }
      (if t.settings.reporter.length = 0 then "default"
       else t.settings.reporter)
      hopen
  refine ⟨e, _, s2, ?_, hlog, htype, ?_, ?_, hopen2, hsh, hdry, hfin⟩
  · unfold Tracker.track Tracker.record_event
    dsimp only
    rw [heq]
    rfl
  · rw [hdata]
    dsimp only
    rw [foldl_applyItemDict_fields]
  · rw [hmeta, create_event_some_meta]
    exact meta_merge_eq { t with tracks_buf := [] }
      (t.tracks_buf ++ [({ fields := f, meta := m } : TrackItem)])

/-- C1: for every Tracker and every sequence of deferred
`track(fields, meta, commit=false)` calls followed by one committing
`track(fields, meta, commit=true)` call (all reporters open), the committed
data of the event equals the ordered shallow merge of the Tracker field
overlay followed by the fields of each pending item in call order — any items
already buffered, then the deferred calls, then the committing call — with
later items overriding earlier ones on key conflict, and the returned
pending buffer of the returned Tracker is empty. -/
theorem track_commit_data_merge (t : Tracker) (s : EventRecorderState)
    (items : List (Option Dict × Option Dict)) (f m : Option Dict)
    (ts : String) (perf : Int) (hopen : allOpen s.reporters = true) :
    ∃ t2 s2 e rep,
      (runTracks ts perf (t, s) items).bind
        (fun p => p.1.track f m true ts perf p.2) = Except.ok (t2, s2) ∧
      t2.tracks_buf = [] ∧
      s2.eventLog = s.eventLog ++ [(e, rep)] ∧
      e.type = "z.tk" ∧
      e.data = mergeDicts t.fields
        ((t.tracks_buf ++
          items.map (fun it => ({ fields := it.1, meta := it.2 } : TrackItem))
          ++ [({ fields := f, meta := m } : TrackItem)]).map
            TrackItem.fields) := by
  rw [runTracks_ok, except_bind_ok]
  obtain ⟨e, rep, s2, heq, hlog, htype, hdata, hmeta, hopen2, hsh, hdry,
    hfin⟩ :=
    track_commit_ok
      { t with tracks_buf := t.tracks_buf ++
          items.map (fun it => ({ fields := it.1, meta := it.2 } : TrackItem)) }
      f m ts perf s hopen
  refine ⟨_, s2, e, rep, heq, rfl, hlog, htype, ?_⟩
  rw [hdata]

def c1s : EventRecorderState := EventRecorderState.init "res" false []

def c1t : Tracker :=
  { settings := { reporter := "default", meta := [], record_log_event := none },
    fields := [("a", Val.int 1), ("b", Val.int 2)], perf_timer_ns := 0,
    tracks_buf := [] }

/-- Witness for C1: a concrete deferred-then-commit run; the committed
data of the event is the overlay merged with both buffered items, the later item
winning at the shared key, and the buffer ends empty. -/
theorem track_commit_data_merge_witness :
    ((runTracks "t" 0 (c1t, c1s) [(some [("b", Val.int 7), ("c", Val.int 3)],
        none)]).bind
      (fun p => p.1.track (some [("c", Val.int 9)]) none true "t" 0
        p.2)).toOption.map
      (fun p => (p.1.tracks_buf,
        p.2.eventLog.map (fun q => (q.1.type, q.1.data)))) =
    some ([], [("z.tk",
      [("a", Val.int 1), ("b", Val.int 7), ("c", Val.int 9)])]) := by
  obtain ⟨t2, s2, e, rep, heq, hbuf, hlog, htype, hdata⟩ :=
    track_commit_data_merge c1t c1s
      [(some [("b", Val.int 7), ("c", Val.int 3)], none)]
      (some [("c", Val.int 9)]) none "t" 0 rfl
  rw [heq]
  simp only [Except.toOption, Option.map, List.map]
  rw [hbuf, hlog]
  simp only [List.map_append, List.map]
  rw [htype, hdata]
  rfl

/-- C4 (amended): the meta of the committed event is the merge of the settings
metadata with the metadata of every pending item (later pending items overriding
earlier ones), RE-OVERRIDDEN by the settings metadata: `_create_event`
updates the merged meta with the settings meta, so on a key conflict the
settings metadata of the Tracker — not the pending track item — wins.  (The
statement in the claim that a key of a pending item overrides the settings value is
refuted by the counterexample.) -/
theorem track_commit_meta_settings_override (t : Tracker)
    (s : EventRecorderState) (items : List (Option Dict × Option Dict))
    (f m : Option Dict) (ts : String) (perf : Int)
    (hopen : allOpen s.reporters = true) :
    ∃ t2 s2 e rep,
      (runTracks ts perf (t, s) items).bind
        (fun p => p.1.track f m true ts perf p.2) = Except.ok (t2, s2) ∧
      s2.eventLog = s.eventLog ++ [(e, rep)] ∧
      e.meta = dunion
        (mergeDicts t.settings.meta
          ((t.tracks_buf ++
            items.map (fun it => ({ fields := it.1, meta := it.2 } : TrackItem))
            ++ [({ fields := f, meta := m } : TrackItem)]).map
              TrackItem.meta))
        t.settings.meta := by
  rw [runTracks_ok, except_bind_ok]
  obtain ⟨e, rep, s2, heq, hlog, htype, hdata, hmeta, hopen2, hsh, hdry,
    hfin⟩ :=
    track_commit_ok
      { t with tracks_buf := t.tracks_buf ++
          items.map (fun it => ({ fields := it.1, meta := it.2 } : TrackItem)) }
      f m ts perf s hopen
  refine ⟨_, s2, e, rep, heq, hlog, ?_⟩
  rw [hmeta]

def c4t : Tracker :=
  { settings :=
      { reporter := "default"
        meta := [("k", Val.str "a")]
        record_log_event := none }
    fields := []
    perf_timer_ns := 0
    tracks_buf := [] }

/-- The run refuting C4 as stated: the settings metadata binds `k` to `a`,
and a committing track call supplies meta `k := b`. -/
def c4run : Except String (Tracker × EventRecorderState) :=
  c4t.track none (some [("k", Val.str "b")]) true "t" 0
    (EventRecorderState.init "res" false [])

/-- Counterexample to C4 as stated: the claim says the value of the pending item,
`b` overrides the settings value at key `k` (the spec-side merge indeed
yields `b`), but the recorded event carries the settings value `a` —
`_create_event` re-applies the settings metadata over the merged meta. -/
theorem track_meta_item_override_cex :
    c4run.toOption.map
      (fun p => p.2.eventLog.map (fun q => dget q.1.meta "k")) =
      some [some (Val.str "a")] ∧
    dget (dunion c4t.settings.meta [("k", Val.str "b")]) "k" =
      some (Val.str "b") := by
  constructor
  · rfl
  · rfl

/-- Witness for C4 (amended) at the same concrete input: the event meta
carries the settings value at the conflicting key. -/
theorem track_commit_meta_settings_override_witness :
    ((runTracks "t" 0 (c4t, EventRecorderState.init "res" false []) []).bind
      (fun p => p.1.track none (some [("k", Val.str "b")]) true "t" 0
        p.2)).toOption.map
      (fun p => p.2.eventLog.map (fun q => q.1.meta)) =
      some [[("k", Val.str "a")]] := by
  obtain ⟨t2, s2, e, rep, heq, hlog, hmeta⟩ :=
    track_commit_meta_settings_override c4t
      (EventRecorderState.init "res" false []) [] none
      (some [("k", Val.str "b")]) "t" 0 rfl
  rw [heq]
  simp only [Except.toOption, Option.map, List.map]
  rw [hlog]
  simp only [List.map_append, List.map]
  rw [hmeta]
  rfl

/-- The child Tracker yielded by `span`: a clone whose settings metadata has
`span.id` and `span.name` merged in. -/
def spanChild (t : Tracker) (sid name : String) : Tracker :=
  { settings := t.settings.merge
      { reporter := ""
        meta := [("span.id", Val.str sid), ("span.name", Val.str name)]
        record_log_event := none }
    fields := t.fields
    perf_timer_ns := t.perf_timer_ns
    tracks_buf := [] }

/-- `Tracker._record_event` wrapper of the recorder characterization. -/
theorem tracker_record_event_ok (tr : Tracker) (evt : Event)
    (s : EventRecorderState) (hopen : allOpen s.reporters = true) :
    ∃ e rep s', tr.record_event evt s = Except.ok s' ∧
      s'.eventLog = s.eventLog ++ [(e, rep)] ∧
      e.type = evt.type ∧ e.meta = evt.meta ∧ e.data = evt.data ∧
      allOpen s'.reporters = true ∧ s'.share_cnt = s.share_cnt ∧
      s'.dry_run = s.dry_run ∧ s'.finalizeLog = s.finalizeLog := by
  obtain ⟨e, s', heq, hlog, htype, hmeta, hdata, hts, hperf, hopen2, hsh,
    hsp, har, hdry, hres, hfin⟩ :=
    recorder_record_event_ok s evt
      (if tr.settings.reporter.length = 0 then "default"
       else tr.settings.reporter) hopen
  exact ⟨e, _, s', heq, hlog, htype, hmeta, hdata, hopen2, hsh, hdry, hfin⟩

theorem spanEnter_eq (t : Tracker) (name ts : String) (perf : Int)
    (s : EventRecorderState) :
    t.spanEnter name ts perf s =
      (Tracker.record_event (spanChild t (toString (s.span_id + 1)) name)
        (t.create_event
          (some [("span.id", Val.str (toString (s.span_id + 1))),
                 ("span.name", Val.str name),
                 ("span.event", Val.str "started")]) "z.span" ts perf)
        (EventRecorderState.share { s with span_id := s.span_id + 1 })).bind
        (fun s3 => Except.ok (toString (s.span_id + 1),
          spanChild t (toString (s.span_id + 1)) name, s3)) := rfl

theorem spanExit_false_eq (t : Tracker) (sid name : String) (child : Tracker)
    (el : Int) (ts : String) (perf : Int) (s : EventRecorderState) :
    t.spanExit sid name child false el ts perf s =
      child.record_event
        (t.create_event
          (some [("span.id", Val.str sid), ("span.name", Val.str name),
                 ("span.event", Val.str "stopped"),
                 ("span.elapsed_ms", Val.int el)]) "z.span" ts perf) s := rfl

theorem span_eq (t : Tracker) (name : String) (lspan : Bool)
    (body : Tracker → EventRecorderState → Bool × EventRecorderState)
    (ts : String) (perf : Int) (el : Int) (s : EventRecorderState) :
    t.span name lspan body ts perf el s =
      (t.spanEnter name ts perf s).bind (fun x =>
        (t.spanExit x.1 name x.2.1 lspan el ts perf
          (body x.2.1 x.2.2).2).bind
          (fun s5 => Except.ok (((body x.2.1 x.2.2).1, x.2.1), s5))) := rfl

/-- C3 (amended): provided the settings metadata of the tracker binds neither
`span.event` nor `span.id` (the settings metadata is re-applied over the
span event metadata by `_create_event`, so such keys would be clobbered —
see the counterexample), every `span(name)` invocation records exactly two
`z.span` events around the enclosed work: one with `span.event = started`
before it and one with `span.event = stopped` after it, both carrying the
same freshly allocated `span.id` — and the stopped event is recorded even
when the enclosed work raises (`okB = false`), since the recording sits in
the `finally` path. -/
theorem span_start_stop_paired (t : Tracker) (name ts : String)
    (perf el : Int)
    (body : Tracker → EventRecorderState → Bool × EventRecorderState)
    (s : EventRecorderState)
    (hopen : allOpen s.reporters = true)
    (hevent : dhasKey t.settings.meta "span.event" = false)
    (hid : dhasKey t.settings.meta "span.id" = false)
    (hbody : ∀ s', allOpen s'.reporters = true →
      ∃ evts,
        (body (spanChild t (toString (s.span_id + 1)) name) s').2.eventLog
          = s'.eventLog ++ evts ∧
        allOpen
          (body (spanChild t (toString (s.span_id + 1)) name)
            s').2.reporters = true) :
    ∃ e1 e2 rep1 rep2 s3 s5,
      t.span name false body ts perf el s =
        Except.ok
          (((body (spanChild t (toString (s.span_id + 1)) name) s3).1,
            spanChild t (toString (s.span_id + 1)) name), s5) ∧
      s3.eventLog = s.eventLog ++ [(e1, rep1)] ∧
      s5.eventLog =
        (body (spanChild t (toString (s.span_id + 1)) name)
          s3).2.eventLog ++ [(e2, rep2)] ∧
      e1.type = "z.span" ∧ e2.type = "z.span" ∧
      dget e1.meta "span.event" = some (Val.str "started") ∧
      dget e2.meta "span.event" = some (Val.str "stopped") ∧
      dget e1.meta "span.id" = some (Val.str (toString (s.span_id + 1))) ∧
      dget e2.meta "span.id" = some (Val.str (toString (s.span_id + 1))) := by
  rw [span_eq]
  obtain ⟨e1, rep1, s3, heq1, hlog1, htype1, hmeta1, hdata1, hopen3, hsh3,
    hdry3, hfin3⟩ :=
    tracker_record_event_ok (spanChild t (toString (s.span_id + 1)) name)
      (t.create_event
        (some [("span.id", Val.str (toString (s.span_id + 1))),
               ("span.name", Val.str name),
               ("span.event", Val.str "started")]) "z.span" ts perf)
      (EventRecorderState.share { s with span_id := s.span_id + 1 })
      hopen
  rw [spanEnter_eq, heq1]
  obtain ⟨evts, hlogB, hopenB⟩ := hbody s3 hopen3
  obtain ⟨e2, rep2, s5, heq2, hlog2, htype2, hmeta2, hdata2, hopen5, hsh5,
    hdry5, hfin5⟩ :=
    tracker_record_event_ok (spanChild t (toString (s.span_id + 1)) name)
      (t.create_event
        (some [("span.id", Val.str (toString (s.span_id + 1))),
               ("span.name", Val.str name),
               ("span.event", Val.str "stopped"),
               ("span.elapsed_ms", Val.int el)]) "z.span" ts perf)
      (body (spanChild t (toString (s.span_id + 1)) name) s3).2 hopenB
  refine ⟨e1, e2, rep1, rep2, s3, s5, ?_, ?_, ?_, ?_, ?_, ?_, ?_, ?_, ?_⟩
  · show (Tracker.spanExit t (toString (s.span_id + 1)) name
        (spanChild t (toString (s.span_id + 1)) name) false el ts perf
        (body (spanChild t (toString (s.span_id + 1)) name) s3).2).bind
      (fun s5 => Except.ok
        (((body (spanChild t (toString (s.span_id + 1)) name) s3).1,
          spanChild t (toString (s.span_id + 1)) name), s5)) = _
    rw [spanExit_false_eq, heq2]
    rfl
  · rw [hlog1]
    rfl
  · rw [hlog2]
  · rw [htype1]
    rfl
  · rw [htype2]
    rfl
  · rw [hmeta1, create_event_some_meta]
    show dget (dunion
      [("span.id", Val.str (toString (s.span_id + 1))),
       ("span.name", Val.str name),
       ("span.event", Val.str "started")] t.settings.meta) "span.event" = _
    rw [dget_dunion_of_not_hasKey _ hevent]
    rfl
  · rw [hmeta2, create_event_some_meta]
    show dget (dunion
      [("span.id", Val.str (toString (s.span_id + 1))),
       ("span.name", Val.str name),
       ("span.event", Val.str "stopped"),
       ("span.elapsed_ms", Val.int el)] t.settings.meta) "span.event" = _
    rw [dget_dunion_of_not_hasKey _ hevent]
    rfl
  · rw [hmeta1, create_event_some_meta]
    show dget (dunion
      [("span.id", Val.str (toString (s.span_id + 1))),
       ("span.name", Val.str name),
       ("span.event", Val.str "started")] t.settings.meta) "span.id" = _
    rw [dget_dunion_of_not_hasKey _ hid]
    rfl
  · rw [hmeta2, create_event_some_meta]
    show dget (dunion
      [("span.id", Val.str (toString (s.span_id + 1))),
       ("span.name", Val.str name),
       ("span.event", Val.str "stopped"),
       ("span.elapsed_ms", Val.int el)] t.settings.meta) "span.id" = _
    rw [dget_dunion_of_not_hasKey _ hid]
    rfl

/-- Witness for C3 (amended): on a fresh root tracker whose enclosed work
raises (`false` outcome), the span records exactly the started and stopped
`z.span` events, both carrying the fresh span id `2001`. -/
theorem span_start_stop_paired_witness :
    ((ztrackCreate "res" false [] 0).1.span "phase" false
        (fun _ x => (false, x)) "t" 0 5
        (ztrackCreate "res" false [] 0).2).toOption.map
      (fun r => (r.1.1, r.2.eventLog.map (fun q =>
        (q.1.type, dget q.1.meta "span.event", dget q.1.meta "span.id")))) =
    some (false,
      [("z.span", some (Val.str "started"), some (Val.str "2001")),
       ("z.span", some (Val.str "stopped"), some (Val.str "2001"))]) := by
  obtain ⟨e1, e2, rep1, rep2, s3, s5, heq, hlog3, hlog5, ht1, ht2, hse1,
    hse2, hid1, hid2⟩ :=
    span_start_stop_paired (ztrackCreate "res" false [] 0).1 "phase" "t" 0 5
      (fun _ x => (false, x)) (ztrackCreate "res" false [] 0).2
      rfl rfl rfl (fun s' h => ⟨[], by simp, h⟩)
  rw [heq]
  simp only [Except.toOption, Option.map]
  rw [hlog5]
  rw [show ((fun (_ : Tracker) (x : EventRecorderState) => (false, x))
      (spanChild (ztrackCreate "res" false [] 0).1
        (toString ((ztrackCreate "res" false [] 0).2.span_id + 1)) "phase")
      s3).2 = s3 from rfl]
  rw [hlog3]
  simp only [List.map_append, List.map]
  rw [ht1, ht2, hse1, hse2, hid1, hid2]
  rfl

def c3xt : Tracker :=
  { settings :=
      { reporter := "default"
        meta := [("span.event", Val.str "zzz")]
        record_log_event := none }
    fields := []
    perf_timer_ns := 0
    tracks_buf := [] }

/-- Counterexample to C3 as stated: on a tracker whose settings metadata
binds `span.event` (here to `zzz`), a `span` invocation records its two
`z.span` events but BOTH carry `span.event = zzz` — `_create_event`
re-applies the settings metadata over the span metadata — so there is no
event with `span.event = started` and none with `span.event = stopped`,
refuting the claim for this invocation. -/
theorem span_meta_override_cex :
    (c3xt.span "sp" false (fun _ x => (true, x)) "t" 0 7
        (EventRecorderState.init "res" false [])).toOption.map
      (fun r => r.2.eventLog.map
        (fun q => (q.1.type, dget q.1.meta "span.event"))) =
    some [("z.span", some (Val.str "zzz")),
          ("z.span", some (Val.str "zzz"))] := by
  rfl

/-- Numeric value of a decimal digit character. -/
def chDigit (c : Char) : Nat := c.toNat - 48

/-- Decimal value of a character list (most significant digit first). -/
def strValList (l : List Char) : Nat :=
  l.foldl (fun a c => 10 * a + chDigit c) 0

/-- Decimal value of a string of digits. -/
def strVal (x : String) : Nat := strValList x.data

theorem chDigit_digitChar (d : Nat) (h : d < 10) :
    chDigit (Nat.digitChar d) = d := by
  interval_cases d <;> rfl

theorem toDigitsCore_append10 :
    ∀ (fuel n : Nat) (ds : List Char),
      Nat.toDigitsCore 10 fuel n ds = Nat.toDigitsCore 10 fuel n [] ++ ds := by
  intro fuel
  induction fuel with
  | zero => intro n ds; rfl
  | succ f ih =>
      intro n ds
      rw [show Nat.toDigitsCore 10 (f + 1) n ds =
        (if n / 10 = 0 then Nat.digitChar (n % 10) :: ds
         else Nat.toDigitsCore 10 f (n / 10) (Nat.digitChar (n % 10) :: ds))
        from rfl]
      rw [show Nat.toDigitsCore 10 (f + 1) n [] =
        (if n / 10 = 0 then [Nat.digitChar (n % 10)]
         else Nat.toDigitsCore 10 f (n / 10) [Nat.digitChar (n % 10)])
        from rfl]
      by_cases h : n / 10 = 0
      · rw [if_pos h, if_pos h]
        rfl
      · rw [if_neg h, if_neg h, ih (n / 10) (Nat.digitChar (n % 10) :: ds),
          ih (n / 10) [Nat.digitChar (n % 10)]]
        simp

theorem strValList_toDigitsCore :
    ∀ (fuel n : Nat), n < fuel →
      strValList (Nat.toDigitsCore 10 fuel n []) = n := by
  intro fuel
  induction fuel with
  | zero => intro n hn; omega
  | succ f ih =>
      intro n hn
      rw [show Nat.toDigitsCore 10 (f + 1) n [] =
        (if n / 10 = 0 then [Nat.digitChar (n % 10)]
         else Nat.toDigitsCore 10 f (n / 10) [Nat.digitChar (n % 10)])
        from rfl]
      by_cases h : n / 10 = 0
      · rw [if_pos h]
        show 10 * 0 + chDigit (Nat.digitChar (n % 10)) = n
        rw [chDigit_digitChar _ (by omega)]
        omega
      · rw [if_neg h, toDigitsCore_append10]
        unfold strValList
        rw [List.foldl_append]
        show 10 * strValList (Nat.toDigitsCore 10 f (n / 10) []) +
          chDigit (Nat.digitChar (n % 10)) = n
        rw [ih (n / 10) (by omega), chDigit_digitChar _ (by omega)]
        omega

/-- `strVal` is a left inverse of the decimal rendering of a natural. -/
theorem strVal_toString (n : Nat) : strVal (toString n) = n :=
  strValList_toDigitsCore (n + 1) n (Nat.lt_succ_self n)

theorem toString_nat_injective : Function.Injective
    (fun n : Nat => toString n) := fun a b h => by
  have h2 := congrArg strVal h
  rwa [strVal_toString, strVal_toString] at h2

/-- The stream of ids returned by `m` successive `next_span_id` calls. -/
def spanIds (s : EventRecorderState) : Nat → List String
  | 0 => []
  | n + 1 => (s.next_span_id).1 :: spanIds (s.next_span_id).2 n

/-- The stream of ids drawn by `n` successive `_get_artifact_id` calls. -/
def artifactIds (s : EventRecorderState) : Nat → List String
  | 0 => []
  | n + 1 => (s.get_artifact_id).1 :: artifactIds (s.get_artifact_id).2 n

theorem spanIds_eq (s : EventRecorderState) (m : Nat) :
    spanIds s m = (List.range m).map (fun j => toString (s.span_id + j + 1))
    := by
  induction m generalizing s with
  | zero => rfl
  | succ m ih =>
      show toString (s.span_id + 1) ::
        spanIds { s with span_id := s.span_id + 1 } m = _
      rw [ih, List.range_succ_eq_map, List.map_cons, List.map_map]
      have hf : ((fun j => toString (s.span_id + j + 1)) ∘ Nat.succ) =
          (fun j => toString (s.span_id + 1 + j + 1)) := by
        funext j
        show toString (s.span_id + (j + 1) + 1) = _
        rw [show s.span_id + (j + 1) + 1 = s.span_id + 1 + j + 1 from by omega]
      rw [hf]

theorem artifactIds_eq (s : EventRecorderState) (n : Nat) :
    artifactIds s n =
      (List.range n).map (fun j => toString (s.artifact_id + j + 1)) := by
  induction n generalizing s with
  | zero => rfl
  | succ n ih =>
      show toString (s.artifact_id + 1) ::
        artifactIds { s with artifact_id := s.artifact_id + 1 } n = _
      rw [ih, List.range_succ_eq_map, List.map_cons, List.map_map]
      have hf : ((fun j => toString (s.artifact_id + j + 1)) ∘ Nat.succ) =
          (fun j => toString (s.artifact_id + 1 + j + 1)) := by
        funext j
        show toString (s.artifact_id + (j + 1) + 1) = _
        rw [show s.artifact_id + (j + 1) + 1 = s.artifact_id + 1 + j + 1
          from by omega]
      rw [hf]

/-- C7 (amended): within one recorder execution, `next_span_id` returns the
decimal renderings of a strictly increasing counter — the ids are pairwise
distinct and their numeric values strictly increase across calls — and
`_get_artifact_id` (consumed exactly once by every `save_artifact` call,
last conjunct) draws from a separate counter; the two id streams are
disjoint ONLY while the artifact counter stays at or below the span
base of the span counter (at most `span_id - artifact_id` artifact draws, 1000 on a
fresh recorder): the unconditional disjointness of the claim fails once the
artifact counter overtakes it, see the counterexample. -/
theorem span_artifact_id_counters (s : EventRecorderState) (m n : Nat)
    (hdisj : s.artifact_id + n ≤ s.span_id) :
    spanIds s m = (List.range m).map (fun j => toString (s.span_id + j + 1)) ∧
    artifactIds s n =
      (List.range n).map (fun j => toString (s.artifact_id + j + 1)) ∧
    (spanIds s m).Nodup ∧
    List.Pairwise (fun x y => strVal x < strVal y) (spanIds s m) ∧
    (∀ x ∈ spanIds s m, x ∉ artifactIds s n) ∧
    (∀ (A : Type) (d : A) (f : A → String) (pfx pn fmt : String) (mt : Dict),
      (s.save_artifact d f pfx pn fmt mt).2.artifact_id = s.artifact_id + 1)
    := by
  refine ⟨spanIds_eq s m, artifactIds_eq s n, ?_, ?_, ?_, ?_⟩
  · rw [spanIds_eq]
    refine List.Nodup.map ?_ (List.nodup_range m)
    intro a b hab
    have := toString_nat_injective hab
    omega
  · rw [spanIds_eq]
    rw [List.pairwise_map]
    refine List.Pairwise.imp ?_ (List.pairwise_lt_range m)
    intro a b hab
    rw [strVal_toString, strVal_toString]
    omega
  · intro x hx hx2
    rw [spanIds_eq] at hx
    rw [artifactIds_eq] at hx2
    obtain ⟨j, hj, hxj⟩ := List.mem_map.mp hx
    obtain ⟨i, hi, hxi⟩ := List.mem_map.mp hx2
    rw [← hxj] at hxi
    have hnum := toString_nat_injective hxi
    rw [List.mem_range] at hi
    omega
  · intro A d f pfx pn fmt mt
    unfold EventRecorderState.save_artifact EventRecorderState.get_artifact_id
    dsimp only
    split
    · rfl
    · rfl

def c7s : EventRecorderState := EventRecorderState.init "res" false []

/-- Witness for C7 (amended) on a fresh recorder: two span ids and three
artifact ids, fully evaluated and disjoint. -/
theorem span_artifact_id_counters_witness :
    spanIds c7s 2 = ["2001", "2002"] ∧
    artifactIds c7s 3 = ["1001", "1002", "1003"] ∧
    "2001" ∉ artifactIds c7s 3 := by
  obtain ⟨h1, h2, hnd, hpw, hdis, hsa⟩ :=
    span_artifact_id_counters c7s 2 3 (by decide)
  refine ⟨by rw [h1]; rfl, by rw [h2]; rfl, ?_⟩
  exact hdis "2001"
    (by rw [h1]; exact List.mem_map.mpr ⟨0, List.mem_range.mpr (by decide), rfl⟩)

/-- Counterexample to C7 as stated: span ids and artifact ids do NOT form
disjoint namespaces unconditionally — the very first span id `2001` is also
produced as the 1001st artifact id of the same recorder. -/
theorem span_artifact_id_collision_cex :
    spanIds (EventRecorderState.init "res" false []) 1 = ["2001"] ∧
    "2001" ∈ artifactIds (EventRecorderState.init "res" false []) 1001 := by
  constructor
  · rfl
  · rw [artifactIds_eq]
    exact List.mem_map.mpr ⟨1000, List.mem_range.mpr (by decide), rfl⟩
